import Mathlib

/-!
Shallow embedding of the stonky Financial Analysis & Scoring Engine.

The engine logic lives in the repository planning documents
(`src/docs/implementation-plan.md`, `src/docs/architecture.md`,
`src/docs/plan-final.md`, `src/unnamed/part_000`) as Python pseudocode, and
in the TypeScript sources `src/lib/cache/redis.ts` and `src/lib/sources/nse.ts`.
Numeric values are embedded as exact rationals (the engines only compare and
average) except where the source formula needs real powers and square roots
(CAGR, Graham number), which are embedded over `ℝ`.
-/

namespace Stonky

/-- Primary qualitative flag of a metric extractor, from the fixed set
GREEN, YELLOW, RED. -/
inductive Flag
| GREEN
| YELLOW
| RED
deriving DecidableEq

/-- Arithmetic mean of a list of rationals, as Python `statistics.mean`
on a nonempty list. -/
def mean (xs : List ℚ) : ℚ := xs.sum / xs.length

/-- Python slice `xs[-n:]` — the last `n` elements (all of them when the
list is shorter than `n`). -/
def lastN (n : ℕ) (xs : List ℚ) : List ℚ := xs.drop (xs.length - n)

/-- QualityEngine.analyze from src/docs/implementation-plan.md (Phase 3.2):
averages the trailing three ROCE and ROE values and applies the decision
table — GREEN when both exceed 15, RED (debt-fueled) when ROCE is below 15
while ROE exceeds 15, YELLOW otherwise. -/
def qualityAnalyze (roce roe : List ℚ) : Flag :=
  let roce_3yr_avg := mean (lastN 3 roce)
  let roe_3yr_avg := mean (lastN 3 roe)
  if roce_3yr_avg > 15 ∧ roe_3yr_avg > 15 then Flag.GREEN
  else if roce_3yr_avg < 15 ∧ roe_3yr_avg > 15 then Flag.RED
  else Flag.YELLOW

/-- The sector → risk-strategy table of RiskEngine from
src/docs/implementation-plan.md (Phase 3.3) and src/docs/architecture.md:
BankingRiskStrategy carries DE_THRESHOLD 2.0, ITRiskStrategy 0.3 and
DefaultRiskStrategy 1.0. Each strategy is represented by its
debt-to-equity threshold. -/
def strategies : List (String × ℚ) :=
  [("Banking", 2), ("IT", 3/10), ("Default", 1)]

/-- Threshold resolution `self.strategies.get(company.sector, self.strategies["Default"])`
from RiskEngine.analyze: exact dictionary lookup with the Default strategy
(threshold 1.0) as fallback. -/
def resolveThreshold (sector : String) : ℚ :=
  (strategies.lookup sector).getD 1

/-- Risk flag decision. Modelled from the spec: the strategy bodies
(`calculate_risk_score`) are left as `pass` in the planning documents; the
spec states the extractor reads the latest debt-to-equity value and flags
GREEN when it is strictly below the resolved sector threshold, RED
otherwise. -/
def riskAnalyze (sector : String) (latestDE : ℚ) : Flag :=
  if latestDE < resolveThreshold sector then Flag.GREEN else Flag.RED

/-- Risk input domain of the verdict classifier. Modelled from the spec:
the classifier consumes a Risk flag drawn from GREEN, RED. -/
inductive RiskInput
| GREEN
| RED
deriving DecidableEq

/-- Valuation classification produced by the Valuation extractor. -/
inductive Valuation
| Undervalued
| Fair
| Overvalued
deriving DecidableEq

/-- Verdict labels of the recommendation engine. -/
inductive Verdict
| STRONG_BUY
| ACCUMULATE
| WAIT
| AVOID
| HOLD
deriving DecidableEq

/-- Verdict classifier. Modelled from the spec: `AnalysisEngine._generate_verdict`
is only a stub in src/docs/implementation-plan.md and the sketches in
src/unnamed/part_000 and src/docs/plan-final.md cover part of the table;
the spec fixes the full decision table over
(Risk flag, Valuation classification, composite score). -/
def generate_verdict (risk : RiskInput) (val : Valuation) (composite : ℚ) : Verdict :=
  match risk with
  | RiskInput.RED => Verdict.AVOID
  | RiskInput.GREEN =>
    match val with
    | Valuation.Overvalued => Verdict.WAIT
    | Valuation.Undervalued =>
      if 60 ≤ composite then Verdict.STRONG_BUY else Verdict.HOLD
    | Valuation.Fair =>
      if 60 ≤ composite then Verdict.ACCUMULATE else Verdict.HOLD

/-- Scoring weight for Quality (30 percent), from the HQSF docstring of
ScoringEngine.calculate_hqsf in src/docs/implementation-plan.md. -/
def wQuality : ℚ := 30/100

/-- Scoring weight for Safety (Risk), 25 percent. -/
def wRisk : ℚ := 25/100

/-- Scoring weight for Valuation, 25 percent. -/
def wValuation : ℚ := 25/100

/-- Scoring weight for Growth, 15 percent. -/
def wGrowth : ℚ := 15/100

/-- Scoring weight for Ownership, 5 percent. -/
def wOwnership : ℚ := 5/100

/-- Composite HQSF score. Modelled from the spec: the body of
ScoringEngine.calculate_hqsf is comments only; the spec states the
composite is the fixed-weight sum of the five 0–100 sub-scores, minus a
fixed penalty when the aggressive-accounting flag is set, and is clamped
to the range 0–100. -/
def calculate_hqsf (quality safety valuation growth ownership : ℚ)
    (aggressive : Bool) (penalty : ℚ) : ℚ :=
  let weighted := wQuality * quality + wRisk * safety + wValuation * valuation
    + wGrowth * growth + wOwnership * ownership
  min 100 (max 0 (if aggressive then weighted - penalty else weighted))

/-- GrowthEngine.calculate_cagr from src/docs/implementation-plan.md
(Phase 3.1), whose docstring fixes the formula
CAGR = (Ending/Beginning)^(1/years) - 1. Ending and beginning are the
Python values[-1] and values[0]; the total accessors coincide with them
whenever the list is nonempty, which the minimum-lookback precondition
guarantees. -/
noncomputable def calculate_cagr (values : List ℝ) (years : ℕ) : ℝ :=
  (values.getLastD 0 / values.headD 0) ^ ((years : ℝ)⁻¹) - 1

/-- ValuationEngine.calculate_graham_number from
src/docs/implementation-plan.md (Phase 3.4): the Graham number
sqrt(22.5 × EPS × BVPS). Modelled from the spec for the guard: the number
is undefined (excluded from comparison) when either input is
non-positive. -/
noncomputable def calculate_graham_number (eps bvps : ℝ) : Option ℝ :=
  if 0 < eps ∧ 0 < bvps then some (Real.sqrt (22.5 * eps * bvps)) else none

/-- State of the analyze_stock endpoint of src/docs/implementation-plan.md
(Phase 4.6): the Redis analysis cache entry (value with its expiry
instant, written with setex 86400), the snapshot repository rows (value
with creation instant, newest first), and a counter of
fetch-and-compute cycles performed. Times are in seconds. -/
structure OrchState (α : Type) where
  cache : Option (α × ℕ)
  snapshots : List (α × ℕ)
  fetches : ℕ
deriving DecidableEq

/-- Redis GET against an entry carrying its expiry instant: a hit only
while `now` is before the expiry. -/
def cacheGet {α : Type} (cache : Option (α × ℕ)) (now : ℕ) : Option α :=
  match cache with
  | some (v, exp) => if now < exp then some v else none
  | none => none

/-- SnapshotRepository.get_latest(symbol, max_age_hours=24): the newest
snapshot if one exists and is at most `maxAgeSec` old. -/
def repoGetLatest {α : Type} (snapshots : List (α × ℕ)) (now maxAgeSec : ℕ) :
    Option α :=
  match snapshots with
  | [] => none
  | (v, t) :: _ => if now ≤ t + maxAgeSec then some v else none

/-- analyze_stock from src/docs/implementation-plan.md (Phase 4.6): unless
`force` is set, first return the Redis cache entry if present, then a
database snapshot of the last 24 hours; otherwise run the analysis engine
(one fetch-and-compute cycle), save the snapshot and cache the result for
86400 seconds. `engineResult` stands for the value computed by
AnalysisEngine.analyze. Returns the response and the new store state. -/
def analyze_stock {α : Type} (engineResult : α) (force : Bool) (now : ℕ)
    (st : OrchState α) : α × OrchState α :=
  match (if force then none else cacheGet st.cache now) with
  | some v => (v, st)
  | none =>
    match (if force then none else repoGetLatest st.snapshots now 86400) with
    | some v => (v, st)
    | none =>
      (engineResult,
        { cache := some (engineResult, now + 86400),
          snapshots := (engineResult, now) :: st.snapshots,
          fetches := st.fetches + 1 })

/-- Phase of one request running the cache-or-compute path of
analyze_stock / cacheJson: it has not yet read the cache, has read it and
missed (about to fetch and compute), or is done holding its response. -/
inductive ReqPhase (α : Type)
| start
| missed
| done (v : α)
deriving DecidableEq

/-- Two concurrent requests for the same symbol over the shared cache,
with the number of fetch-and-compute cycles performed so far. -/
structure PairState (α : Type) where
  cache : Option α
  fetches : ℕ
  r1 : ReqPhase α
  r2 : ReqPhase α
deriving DecidableEq

/-- One atomic step of a single request between its suspension points:
reading the cache either completes the request (hit) or records a miss;
a missed request then fetches, computes and writes the cache. There is no
lock between the read and the write, exactly as in analyze_stock and in
cacheJson of src/lib/cache/redis.ts. -/
def reqStep {α : Type} (compute : α) (cache : Option α) (fetches : ℕ) :
    ReqPhase α → Option α × ℕ × ReqPhase α
  | ReqPhase.start =>
    match cache with
    | some v => (cache, fetches, ReqPhase.done v)
    | none => (cache, fetches, ReqPhase.missed)
  | ReqPhase.missed => (some compute, fetches + 1, ReqPhase.done compute)
  | ReqPhase.done v => (cache, fetches, ReqPhase.done v)

/-- Scheduler step: advance request 1 (`false`) or request 2 (`true`). -/
def pairStep {α : Type} (compute : α) (s : PairState α) : Bool → PairState α
  | false =>
    match reqStep compute s.cache s.fetches s.r1 with
    | (c, f, p) => { cache := c, fetches := f, r1 := p, r2 := s.r2 }
  | true =>
    match reqStep compute s.cache s.fetches s.r2 with
    | (c, f, p) => { cache := c, fetches := f, r1 := s.r1, r2 := p }

/-- Run a schedule, an interleaving of the two requests' steps. -/
def runSched {α : Type} (compute : α) (sched : List Bool) (s : PairState α) :
    PairState α :=
  sched.foldl (pairStep compute) s

/-- Initial state: no cached result, no fetches, both requests arriving. -/
def initPair (α : Type) : PairState α :=
  { cache := none, fetches := 0, r1 := ReqPhase.start, r2 := ReqPhase.start }

/-- Value returned by getQuote of src/lib/sources/nse.ts: either the
fetched quote payload or the failure object with status unavailable. -/
inductive QuoteVal
| ok (d : ℕ)
| unavailable
deriving DecidableEq

/-- Redis key-value store: entries carry their expiry instant (seconds). -/
structure KV where
  entries : List (String × QuoteVal × ℕ)
deriving DecidableEq

/-- Redis GET: the stored value while `now` is before its expiry. -/
def kvGet (kv : KV) (key : String) (now : ℕ) : Option QuoteVal :=
  match kv.entries.lookup key with
  | some (v, exp) => if now < exp then some v else none
  | none => none

/-- Redis SET key value EX ttl. -/
def kvSet (kv : KV) (key : String) (v : QuoteVal) (ttl now : ℕ) : KV :=
  ⟨(key, v, now + ttl) :: kv.entries⟩

/-- cacheJson from src/lib/cache/redis.ts: when a Redis client is
configured (`redis = some kv`) return a fresh cached value if present,
otherwise invoke the fetcher and store its value with the given TTL; when
no client is configured (REDIS_URL unset, getRedis() returns null) always
invoke the fetcher and store nothing. The Bool records whether the
fetcher was invoked. -/
def cacheJson (redis : Option KV) (key : String) (fetcherVal : QuoteVal)
    (ttl now : ℕ) : QuoteVal × Option KV × Bool :=
  match redis with
  | some kv =>
    match kvGet kv key now with
    | some v => (v, some kv, false)
    | none => (fetcherVal, some (kvSet kv key fetcherVal ttl now), true)
  | none => (fetcherVal, none, true)

/-- The fetcher closure inside getQuote of src/lib/sources/nse.ts: it
awaits fetchJson on the NSE quote URL and catches any failure, returning
the object with status unavailable. `outcome` is the result of the
underlying NSE fetch, error meaning fetchJson threw. -/
def getQuoteFetcher : Except String ℕ → QuoteVal
  | Except.ok d => QuoteVal.ok d
  | Except.error _ => QuoteVal.unavailable

/-- getQuote from src/lib/sources/nse.ts: cacheJson on the key
nse:quote:symbol with a 300-second TTL around the catching fetcher. -/
def getQuote (redis : Option KV) (symbol : String) (outcome : Except String ℕ)
    (now : ℕ) : QuoteVal × Option KV × Bool :=
  cacheJson redis (String.append "nse:quote:" symbol)
    (getQuoteFetcher outcome) 300 now

end Stonky

namespace Stonky

/-- C1: with at least three annual records, the Quality flag is GREEN iff
both trailing 3-year averages of ROCE and ROE exceed 15, RED iff the ROCE
average is below 15 while the ROE average exceeds 15, YELLOW in every
other case; and ROCE history 10,11,12 with ROE history 18,19,20 yields
RED. -/
theorem C1_quality_flag_table (roce roe : List ℚ)
    (hroce : 3 ≤ roce.length) (hroe : 3 ≤ roe.length) :
    (qualityAnalyze roce roe = Flag.GREEN ↔
      15 < mean (lastN 3 roce) ∧ 15 < mean (lastN 3 roe)) ∧
    (qualityAnalyze roce roe = Flag.RED ↔
      mean (lastN 3 roce) < 15 ∧ 15 < mean (lastN 3 roe)) ∧
    (qualityAnalyze roce roe = Flag.YELLOW ↔
      ¬ (15 < mean (lastN 3 roce) ∧ 15 < mean (lastN 3 roe)) ∧
      ¬ (mean (lastN 3 roce) < 15 ∧ 15 < mean (lastN 3 roe))) ∧
    qualityAnalyze [10, 11, 12] [18, 19, 20] = Flag.RED := by
  have havg1 : mean (lastN 3 [(10 : ℚ), 11, 12]) = 11 := by
    norm_num [mean, lastN]
  have havg2 : mean (lastN 3 [(18 : ℚ), 19, 20]) = 19 := by
    norm_num [mean, lastN]
  have hc : qualityAnalyze [10, 11, 12] [18, 19, 20] = Flag.RED := by
    unfold qualityAnalyze
    dsimp only
    rw [havg1, havg2]
    norm_num
  refine ⟨?_, ?_, ?_, hc⟩
  · unfold qualityAnalyze
    dsimp only
    split_ifs with h1 h2
    · exact iff_of_true rfl h1
    · exact iff_of_false (by simp) h1
    · exact iff_of_false (by simp) h1
  · unfold qualityAnalyze
    dsimp only
    split_ifs with h1 h2
    · exact iff_of_false (by simp)
        (fun h => absurd h1.1 (not_lt.mpr h.1.le))
    · exact iff_of_true rfl h2
    · exact iff_of_false (by simp) h2
  · unfold qualityAnalyze
    dsimp only
    split_ifs with h1 h2
    · exact iff_of_false (by simp) (fun h => h.1 h1)
    · exact iff_of_false (by simp) (fun h => h.2 h2)
    · exact iff_of_true rfl ⟨h1, h2⟩

/-- Closed witness for C1 at a concrete three-year history. -/
theorem C1_quality_flag_table_witness :
    qualityAnalyze [10, 11, 12] [18, 19, 20] = Flag.RED :=
  (C1_quality_flag_table [10, 11, 12] [18, 19, 20]
    (by decide) (by decide)).2.2.2

/-- C2: the verdict classifier is total and deterministic over
(Risk flag in GREEN,RED; Valuation classification; composite in 0..100)
and follows the decision table: GREEN/Undervalued at composite 60 or more
gives STRONG_BUY, GREEN/Fair at 60 or more gives ACCUMULATE,
GREEN/Overvalued gives WAIT at any composite, RED gives AVOID, and every
remaining combination (composite below 60) gives HOLD. Being a Lean
function, `generate_verdict` yields exactly one verdict per input. -/
theorem C2_verdict_table_total (risk : RiskInput) (val : Valuation) (c : ℚ)
    (h0 : 0 ≤ c) (h100 : c ≤ 100) :
    (generate_verdict risk val c = Verdict.STRONG_BUY ↔
      risk = RiskInput.GREEN ∧ val = Valuation.Undervalued ∧ 60 ≤ c) ∧
    (generate_verdict risk val c = Verdict.ACCUMULATE ↔
      risk = RiskInput.GREEN ∧ val = Valuation.Fair ∧ 60 ≤ c) ∧
    (generate_verdict risk val c = Verdict.WAIT ↔
      risk = RiskInput.GREEN ∧ val = Valuation.Overvalued) ∧
    (generate_verdict risk val c = Verdict.AVOID ↔ risk = RiskInput.RED) ∧
    (generate_verdict risk val c = Verdict.HOLD ↔
      risk = RiskInput.GREEN ∧ val ≠ Valuation.Overvalued ∧ c < 60) := by
  by_cases h : 60 ≤ c
  · have h2 : ¬ c < 60 := not_lt.mpr h
    cases risk <;> cases val <;> simp [generate_verdict, h, h2]
  · have h2 : c < 60 := not_le.mp h
    cases risk <;> cases val <;> simp [generate_verdict, h, h2]

/-- Closed witness for C2: a GREEN, Undervalued input with composite 75
classifies as STRONG_BUY. -/
theorem C2_verdict_table_total_witness :
    generate_verdict RiskInput.GREEN Valuation.Undervalued 75 =
      Verdict.STRONG_BUY :=
  (C2_verdict_table_total RiskInput.GREEN Valuation.Undervalued 75
    (by norm_num) (by norm_num)).1.mpr ⟨rfl, rfl, by norm_num⟩

/-- C3: threshold resolution is total — every sector string resolves to
exactly one threshold, an unmatched sector falls back to the default 1.0,
the unrecognized sector Textiles resolves to 1.0, and the Risk extractor
produces a flag for every sector and debt-to-equity input. -/
theorem C3_resolver_total (sector : String) :
    (∃ t : ℚ, resolveThreshold sector = t ∧
      ∀ u : ℚ, resolveThreshold sector = u → u = t) ∧
    (strategies.lookup sector = none → resolveThreshold sector = 1) ∧
    resolveThreshold "Textiles" = 1 ∧
    (∀ de : ℚ, ∃ f : Flag, riskAnalyze sector de = f) := by
  refine ⟨⟨resolveThreshold sector, rfl, fun u hu => hu.symm⟩, ?_, ?_,
    fun de => ⟨riskAnalyze sector de, rfl⟩⟩
  · intro h
    simp [resolveThreshold, h]
  · rfl

/-- Closed witness for C3 at the unmatched sector Textiles. -/
theorem C3_resolver_total_witness :
    resolveThreshold "Textiles" = 1 :=
  (C3_resolver_total "Textiles").2.1 rfl

/-- C4: whenever the latest debt-to-equity value is defined, the Risk flag
is GREEN iff it is strictly below the resolved sector threshold and RED
otherwise; the Banking threshold resolves to 2.0 and the IT threshold to
0.3, so a debt-to-equity of 1.5 is GREEN for Banking and RED for IT. -/
theorem C4_risk_flag (sector : String) (de : ℚ) :
    (riskAnalyze sector de = Flag.GREEN ↔ de < resolveThreshold sector) ∧
    (riskAnalyze sector de = Flag.RED ↔ ¬ de < resolveThreshold sector) ∧
    resolveThreshold "Banking" = 2 ∧
    resolveThreshold "IT" = 3/10 ∧
    riskAnalyze "Banking" (3/2) = Flag.GREEN ∧
    riskAnalyze "IT" (3/2) = Flag.RED := by
  have hbank : resolveThreshold "Banking" = 2 := rfl
  have hit : resolveThreshold "IT" = 3/10 := rfl
  refine ⟨?_, ?_, hbank, hit, ?_, ?_⟩
  · unfold riskAnalyze
    split_ifs with h
    · exact iff_of_true rfl h
    · exact iff_of_false (by simp) h
  · unfold riskAnalyze
    split_ifs with h
    · exact iff_of_false (by simp) (not_not_intro h)
    · exact iff_of_true rfl h
  · have hlt : ((3 : ℚ)/2) < resolveThreshold "Banking" := by
      rw [hbank] ; norm_num
    unfold riskAnalyze
    rw [if_pos hlt]
  · have hge : ¬ ((3 : ℚ)/2) < resolveThreshold "IT" := by
      rw [hit] ; norm_num
    unfold riskAnalyze
    rw [if_neg hge]

/-- C5: the five scoring weights sum to 1.0 within 1e-6 (they sum to 1
exactly), and for sub-scores in 0..100 with any penalty the composite
HQSF score lies in 0..100. -/
theorem C5_weights_and_range (q r v g o penalty : ℚ) (aggressive : Bool)
    (hq0 : 0 ≤ q) (hq1 : q ≤ 100) (hr0 : 0 ≤ r) (hr1 : r ≤ 100)
    (hv0 : 0 ≤ v) (hv1 : v ≤ 100) (hg0 : 0 ≤ g) (hg1 : g ≤ 100)
    (ho0 : 0 ≤ o) (ho1 : o ≤ 100) :
    |wQuality + wRisk + wValuation + wGrowth + wOwnership - 1| ≤ 1/1000000 ∧
    0 ≤ calculate_hqsf q r v g o aggressive penalty ∧
    calculate_hqsf q r v g o aggressive penalty ≤ 100 := by
  refine ⟨by norm_num [wQuality, wRisk, wValuation, wGrowth, wOwnership],
    ?_, ?_⟩
  · unfold calculate_hqsf
    exact le_min (by norm_num) (le_max_left 0 _)
  · unfold calculate_hqsf
    exact min_le_left 100 _

/-- Closed witness for C5 at all sub-scores 50, penalty 10, aggressive
accounting set. -/
theorem C5_weights_and_range_witness :
    0 ≤ calculate_hqsf 50 50 50 50 50 true 10 ∧
    calculate_hqsf 50 50 50 50 50 true 10 ≤ 100 :=
  ⟨(C5_weights_and_range 50 50 50 50 50 10 true
      (by norm_num) (by norm_num) (by norm_num) (by norm_num) (by norm_num)
      (by norm_num) (by norm_num) (by norm_num) (by norm_num)
      (by norm_num)).2.1,
   (C5_weights_and_range 50 50 50 50 50 10 true
      (by norm_num) (by norm_num) (by norm_num) (by norm_num) (by norm_num)
      (by norm_num) (by norm_num) (by norm_num) (by norm_num)
      (by norm_num)).2.2⟩

/-- C6: for a series of at least two values with positive start, the CAGR
equals (end/start)^(1/years) - 1; equivalently, compounding the computed
rate over the window recovers end/start; and CAGR of 100,110,121 over 2
years is 0.10 within tolerance 0.001. -/
theorem C6_cagr_formula (values : List ℝ) (years : ℕ)
    (hlen : 2 ≤ values.length) (hstart : 0 < values.headD 0)
    (hend : 0 ≤ values.getLastD 0) (hyears : 0 < years) :
    calculate_cagr values years =
      (values.getLastD 0 / values.headD 0) ^ ((years : ℝ)⁻¹) - 1 ∧
    (1 + calculate_cagr values years) ^ years =
      values.getLastD 0 / values.headD 0 ∧
    |calculate_cagr [100, 110, 121] 2 - 1/10| < 1/1000 := by
  refine ⟨rfl, ?_, ?_⟩
  · unfold calculate_cagr
    have hx : (0 : ℝ) ≤ values.getLastD 0 / values.headD 0 :=
      div_nonneg hend hstart.le
    have h1 : 1 + ((values.getLastD 0 / values.headD 0) ^ ((years : ℝ)⁻¹) - 1)
        = (values.getLastD 0 / values.headD 0) ^ ((years : ℝ)⁻¹) := by ring
    rw [h1]
    exact Real.rpow_inv_natCast_pow hx hyears.ne'
  · have hlast : ([100, 110, 121] : List ℝ).getLastD 0 = 121 := rfl
    have hhead : ([100, 110, 121] : List ℝ).headD 0 = 100 := rfl
    unfold calculate_cagr
    rw [hlast, hhead]
    rw [show ((121 : ℝ)/100) = (11/10) ^ (2 : ℕ) by norm_num]
    rw [Real.pow_rpow_inv_natCast (by norm_num) (by norm_num)]
    norm_num

/-- Closed witness for C6 at the series 100, 110, 121 over two years. -/
theorem C6_cagr_formula_witness :
    |calculate_cagr [100, 110, 121] 2 - 1/10| < 1/1000 :=
  (C6_cagr_formula [100, 110, 121] 2 (by norm_num)
    (by norm_num [List.headD]) (by norm_num [List.getLastD])
    (by norm_num)).2.2

/-- C7: with both latest EPS and book value per share strictly positive
the Graham number is sqrt(22.5 × EPS × BVPS), with either input
non-positive it is reported undefined (none) rather than an error, and
EPS 50 with book value 500 gives exactly 750. -/
theorem C7_graham_number (eps bvps : ℝ) :
    (0 < eps → 0 < bvps →
      calculate_graham_number eps bvps =
        some (Real.sqrt (22.5 * eps * bvps))) ∧
    (eps ≤ 0 ∨ bvps ≤ 0 → calculate_graham_number eps bvps = none) ∧
    calculate_graham_number 50 500 = some 750 := by
  refine ⟨?_, ?_, ?_⟩
  · intro h1 h2
    unfold calculate_graham_number
    rw [if_pos ⟨h1, h2⟩]
  · intro h
    unfold calculate_graham_number
    rw [if_neg]
    rcases h with h | h
    · exact fun hc => absurd hc.1 (not_lt.mpr h)
    · exact fun hc => absurd hc.2 (not_lt.mpr h)
  · unfold calculate_graham_number
    rw [if_pos (⟨by norm_num, by norm_num⟩ : (0:ℝ) < 50 ∧ (0:ℝ) < 500)]
    congr 1
    rw [show (22.5 : ℝ) * 50 * 500 = 750 ^ 2 by norm_num]
    exact Real.sqrt_sq (by norm_num)

/-- Closed witness for C7 at EPS 50 and book value 500. -/
theorem C7_graham_number_witness :
    calculate_graham_number 50 500 = some (Real.sqrt (22.5 * 50 * 500)) :=
  (C7_graham_number 50 500).1 (by norm_num) (by norm_num)

/-- C8: after a first analyze call that computes and stores a result at
time t0, a second call without force within the freshness window (before
t0 + 86400 seconds) returns the stored result unchanged and leaves the
store untouched — in particular the fetch-and-compute counter does not
move, i.e. zero additional external fetches happen. -/
theorem C8_cache_idempotent {α : Type} (engine1 engine2 : α) (t0 t1 : ℕ)
    (st0 : OrchState α)
    (hmiss1 : cacheGet st0.cache t0 = none)
    (hmiss2 : repoGetLatest st0.snapshots t0 86400 = none)
    (hfresh : t1 < t0 + 86400) :
    (analyze_stock engine1 false t0 st0).1 = engine1 ∧
    analyze_stock engine2 false t1 (analyze_stock engine1 false t0 st0).2 =
      ((analyze_stock engine1 false t0 st0).1,
       (analyze_stock engine1 false t0 st0).2) ∧
    ((analyze_stock engine1 false t0 st0).2).fetches = st0.fetches + 1 := by
  have h1 : analyze_stock engine1 false t0 st0 =
      (engine1,
        { cache := some (engine1, t0 + 86400),
          snapshots := (engine1, t0) :: st0.snapshots,
          fetches := st0.fetches + 1 }) := by
    unfold analyze_stock
    rw [if_neg (by simp), if_neg (by simp), hmiss1, hmiss2]
  refine ⟨by rw [h1], ?_, by rw [h1]⟩
  rw [h1]
  unfold analyze_stock
  rw [if_neg (by simp)]
  simp [cacheGet, hfresh]

/-- Closed witness for C8: a second call one hour after the first returns
the first result although the engine would now produce a different one. -/
theorem C8_cache_idempotent_witness :
    (analyze_stock 7 false 0 (⟨none, [], 0⟩ : OrchState ℕ)).1 = 7 ∧
    analyze_stock 8 false 3600
        (analyze_stock 7 false 0 (⟨none, [], 0⟩ : OrchState ℕ)).2 =
      ((analyze_stock 7 false 0 (⟨none, [], 0⟩ : OrchState ℕ)).1,
       (analyze_stock 7 false 0 (⟨none, [], 0⟩ : OrchState ℕ)).2) := by
  have h := C8_cache_idempotent 7 8 0 3600 (⟨none, [], 0⟩ : OrchState ℕ)
    rfl rfl (by norm_num)
  exact ⟨h.1, h.2.1⟩

/-- C9 counterexample: with no cached result, the interleaving in which
both requests read the cache before either writes it (request 1 reads,
request 2 reads, request 1 fetches and writes, request 2 fetches and
writes — exactly the suspension points of analyze_stock and cacheJson,
which take no lock) performs two fetch-and-compute cycles, not one,
although both callers do end up with the same result. -/
theorem C9_interleaving_two_fetches :
    (runSched 42 [false, true, false, true] (initPair ℕ)).fetches = 2 ∧
    (runSched 42 [false, true, false, true] (initPair ℕ)).fetches ≠ 1 ∧
    (runSched 42 [false, true, false, true] (initPair ℕ)).r1 =
      ReqPhase.done 42 ∧
    (runSched 42 [false, true, false, true] (initPair ℕ)).r2 =
      ReqPhase.done 42 :=
  ⟨rfl, by decide, rfl, rfl⟩

/-- C9 amended: with no cached result, concurrent analyze calls may each
trigger a fetch-and-compute cycle (the interleaved pair performs two),
though every caller still receives the identical result; only when the
calls are serialized — the second reads the cache after the first has
written it — is exactly one cycle performed. -/
theorem C9_serialized_single_fetch (α : Type) (compute : α) :
    (runSched compute [false, false, true] (initPair α)).fetches = 1 ∧
    (runSched compute [false, false, true] (initPair α)).r1 =
      ReqPhase.done compute ∧
    (runSched compute [false, false, true] (initPair α)).r2 =
      ReqPhase.done compute ∧
    (runSched compute [false, true, false, true] (initPair α)).fetches = 2 ∧
    (runSched compute [false, true, false, true] (initPair α)).r1 =
      (runSched compute [false, true, false, true] (initPair α)).r2 :=
  ⟨rfl, rfl, rfl, rfl, rfl⟩

/-- C10 counterexample: when no Redis client is configured (REDIS_URL
unset, getRedis() returns null), a failing NSE fetch still resolves to
the status-unavailable value, but nothing is written to any cache, and a
second getQuote call 10 seconds later — well within 300 seconds —
invokes the underlying fetch again, re-contacting the source. -/
theorem C10_no_redis_refetch :
    (getQuote none "TCS" (Except.error "down") 0).1 =
      QuoteVal.unavailable ∧
    (getQuote none "TCS" (Except.error "down") 0).2.1 = none ∧
    (getQuote (getQuote none "TCS" (Except.error "down") 0).2.1 "TCS"
      (Except.error "down") 10).2.2 = true ∧
    (10 : ℕ) < 0 + 300 :=
  ⟨rfl, rfl, rfl, by norm_num⟩

/-- C10 amended: getQuote never throws — any failing fetch resolves to
the status-unavailable value — and when a Redis client is configured the
failure value is cached with a 300-second TTL, so every further getQuote
call for the symbol within those 300 seconds returns the cached failure
value without invoking the underlying fetch; with no client configured,
nothing is cached and each call re-contacts the source. -/
theorem C10_quote_failure_cached (kv : KV) (symbol err : String) (t0 t1 : ℕ)
    (hmiss : kvGet kv (String.append "nse:quote:" symbol) t0 = none)
    (hfresh : t1 < t0 + 300) :
    (∀ e : String, getQuoteFetcher (Except.error e) = QuoteVal.unavailable) ∧
    (getQuote (some kv) symbol (Except.error err) t0).1 =
      QuoteVal.unavailable ∧
    (∀ outcome2 : Except String ℕ,
      (getQuote (getQuote (some kv) symbol (Except.error err) t0).2.1 symbol
        outcome2 t1).1 = QuoteVal.unavailable ∧
      (getQuote (getQuote (some kv) symbol (Except.error err) t0).2.1 symbol
        outcome2 t1).2.2 = false) := by
  have h1 : getQuote (some kv) symbol (Except.error err) t0 =
      (QuoteVal.unavailable,
       some (kvSet kv (String.append "nse:quote:" symbol)
         QuoteVal.unavailable 300 t0), true) := by
    simp only [getQuote, cacheJson, getQuoteFetcher, hmiss]
  have h2 : kvGet (kvSet kv (String.append "nse:quote:" symbol)
      QuoteVal.unavailable 300 t0) (String.append "nse:quote:" symbol) t1 =
      some QuoteVal.unavailable := by
    simp [kvGet, kvSet, List.lookup, hfresh]
  refine ⟨fun e => rfl, by rw [h1], fun outcome2 => ?_⟩
  rw [h1]
  simp [getQuote, cacheJson, h2]

/-- Closed witness for C10 against an empty configured cache. -/
theorem C10_quote_failure_cached_witness :
    (getQuote (some ⟨[]⟩) "TCS" (Except.error "down") 0).1 =
      QuoteVal.unavailable :=
  (C10_quote_failure_cached ⟨[]⟩ "TCS" "down" 0 100 rfl (by norm_num)).2.1

end Stonky
